import Mathlib

/-!
Shallow embedding of `src/cfModel.py` (solar project cash-flow model).

Python floats are modelled as rationals (`ℚ`); Python `int` as `ℤ` where the
source accepts arbitrary integers. A Python function that can `raise` is
modelled as `Except String`, carrying the source's error message verbatim.
External collaborators become parameters:
* the electricity-price CSV (`_ELECTRICITY_PRICE_DF`) becomes a typed
  association list whose keys are already lowercased, since the source
  lowercases the whole `state` column once at load time; the schema check
  (`required_cols`) cannot fail on the typed table, which always carries
  both fields;
* `numpy_financial.irr` becomes a function argument `npf_irr` returning
  `Option ℚ`, where `none` stands for a result that fails `float`
  conversion or is NaN (`irr != irr` in the source).
-/

deriving instance DecidableEq for Except

/-- One row of the cash-flow table built by `build_cashflow_schedule`.
The source appends dictionaries with exactly these keys; `price_per_kwh`
is `None` for year 0, hence the `Option`. -/
structure CashFlowRow where
  year : ℕ
  price_per_kwh : Option ℚ
  generation_kwh : ℚ
  om_cost : ℚ
  net_cashflow : ℚ
  cumulative_cashflow : ℚ
deriving DecidableEq, Repr

/-- Module-level configuration constant `PROJECT_YEARS` of `cfModel.py`. -/
def PROJECT_YEARS : ℤ := 25

/-- Module-level configuration constant `CAPEX_PER_WATT = 2.50`. -/
def CAPEX_PER_WATT : ℚ := 5 / 2

/-- Module-level configuration constant `ITC_RATE = 0.30`. -/
def ITC_RATE : ℚ := 3 / 10

/-- Module-level configuration constant `GEN_KWH_PER_KW_YEAR = 1400.0`. -/
def GEN_KWH_PER_KW_YEAR : ℚ := 1400

/-- Module-level configuration constant `PRICE_ESCALATION = 0.025`. -/
def PRICE_ESCALATION : ℚ := 1 / 40

/-- Module-level configuration constant `OM_PER_KW_YEAR = 15.0`. -/
def OM_PER_KW_YEAR : ℚ := 15

/-- `get_electricity_price`: returns the price for a state.  The DataFrame
`.loc` filter followed by `.iloc[0]` is the first row whose (lowercased)
state key equals the lowercased query; raises when no row matches. -/
def get_electricity_price (price_table : List (String × ℚ)) (state : String) :
    Except String ℚ :=
  match price_table.find? (fun p => p.1 == state.toLower) with
  | some p => .ok p.2
  | none => .error "State not found in price table"

/-- `calc_upfront_capex`: capex in dollars given kW system size and dollars
per watt installed cost.  Note the source validates only `capex_per_watt`,
not the system size. -/
def calc_upfront_capex (system_size_kw capex_per_watt : ℚ) : Except String ℚ :=
  if capex_per_watt ≤ 0 then .error "capex_per_watt must be > 0."
  else .ok (capex_per_watt * (system_size_kw * 1000))

/-- `calc_itc_value`: investment tax credit in dollars. -/
def calc_itc_value (capex itc_rate : ℚ) : Except String ℚ :=
  if capex < 0 then .error "capex must be >= 0."
  else if ¬ (0 ≤ itc_rate ∧ itc_rate ≤ 1) then
    .error "itc_rate must be between 0 and 1."
  else .ok (capex * itc_rate)

/-- `calc_annual_generation_kwh`: annual generation in kWh. -/
def calc_annual_generation_kwh (system_size_kw gen_kwh_per_kw_year : ℚ) :
    Except String ℚ :=
  if gen_kwh_per_kw_year ≤ 0 then .error "gen_kwh_per_kw_year must be > 0."
  else .ok (system_size_kw * gen_kwh_per_kw_year)

/-- `electricity_price_for_year`: price in dollars per kWh for a given year;
year `t` uses `base_price * (1 + escalation) ^ (t - 1)`. -/
def electricity_price_for_year (base_price : ℚ) (year : ℤ) (escalation : ℚ) :
    Except String ℚ :=
  if base_price ≤ 0 then .error "base_price must be > 0."
  else if year < 1 then
    .error "year must be >= 1 for price escalation calculation."
  else if escalation < 0 then .error "escalation must be >= 0."
  else .ok (base_price * (1 + escalation) ^ (year - 1).toNat)

/-- `annual_om_cost`: annual operations-and-maintenance cost in dollars. -/
def annual_om_cost (system_size_kw om_per_kw_year : ℚ) : Except String ℚ :=
  if om_per_kw_year < 0 then .error "om_per_kw_year must be >= 0."
  else .ok (system_size_kw * om_per_kw_year)

/-- The `for yr in range(1, years + 1)` loop of `build_cashflow_schedule`:
each iteration prices the year, computes gross savings, net cash flow and
the running cumulative, and appends a row.  `cumulative` is the running sum
entering the iteration, `yr` the current year, `n` the iterations left.
The loop's call to `electricity_price_for_year` has its guards settled once
before the loop (see `build_cashflow_schedule`), so the priced value is
inlined here. -/
def schedule_rows_from (annual_gen om base_price escalation cumulative : ℚ)
    (yr n : ℕ) : List CashFlowRow :=
  match n with
  | 0 => []
  | Nat.succ m =>
    let price := base_price * (1 + escalation) ^ (yr - 1)
    let gross_savings := annual_gen * price
    let net_cf := gross_savings - om
    let cum := cumulative + net_cf
    { year := yr, price_per_kwh := some price, generation_kwh := annual_gen,
      om_cost := om, net_cashflow := net_cf, cumulative_cashflow := cum }
      :: schedule_rows_from annual_gen om base_price escalation cum (yr + 1) m

/-- `build_cashflow_schedule`: returns the cash-flow table rows and the flat
cash-flow series used for IRR.  The source validates `years` and
`base_price_per_kwh` itself and delegates the rest to the scalar formulas.
Inside the loop, `electricity_price_for_year`'s `base_price ≤ 0` and
`year < 1` guards can never fire (`base_price_per_kwh > 0` was already
checked and `yr ≥ 1`); its `escalation < 0` guard fires on the first
iteration — which always runs, since `years > 0` — before any value is
returned, so it is checked here immediately before the loop. -/
def build_cashflow_schedule (system_size_kw base_price_per_kwh : ℚ)
    (years : ℤ) (capex_per_watt itc_rate gen_kwh_per_kw_year escalation
    om_per_kw_year : ℚ) : Except String (List CashFlowRow × List ℚ) := do
  if years ≤ 0 then throw "years must be > 0."
  else if base_price_per_kwh ≤ 0 then throw "base_price_per_kwh must be > 0."
  else
    let capex ← calc_upfront_capex system_size_kw capex_per_watt
    let itc ← calc_itc_value capex itc_rate
    let annual_gen ← calc_annual_generation_kwh system_size_kw
      gen_kwh_per_kw_year
    let om ← annual_om_cost system_size_kw om_per_kw_year
    if escalation < 0 then throw "escalation must be >= 0."
    else
      let cf0 := -capex + itc
      let row0 : CashFlowRow :=
        { year := 0, price_per_kwh := none, generation_kwh := 0, om_cost := 0,
          net_cashflow := cf0, cumulative_cashflow := cf0 }
      let tail := schedule_rows_from annual_gen om base_price_per_kwh
        escalation cf0 1 years.toNat
      pure (row0 :: tail, cf0 :: tail.map (fun r => r.net_cashflow))

/-- `calc_project_irr`: IRR as a decimal.  `npf_irr` stands for the external
solver `numpy_financial.irr`; `none` models a value that fails `float`
conversion or is NaN. -/
def calc_project_irr (npf_irr : List ℚ → Option ℚ) (cashflows : List ℚ) :
    Option ℚ :=
  if cashflows.isEmpty ∨ cashflows.length < 2 then none
  else
    match npf_irr cashflows with
    | none => none
    | some r => some r

/-- `calc_payback_period_years`: the first year whose cumulative cash flow
is ≥ 0, `none` if it never pays back within the horizon.  On an empty table
`cum[0]` raises IndexError in the source; the `for i in range(1, len(cum))`
scan is the first match over the remaining rows. -/
def calc_payback_period_years (rows : List CashFlowRow) :
    Except String (Option ℕ) :=
  match rows with
  | [] => .error "list index out of range"
  | r0 :: rest =>
    if 0 ≤ r0.cumulative_cashflow then .ok (some r0.year)
    else .ok ((rest.find? (fun r => decide (0 ≤ r.cumulative_cashflow))).map
      (fun r => r.year))

/-- Decimal rounding used on the presentation copy (`Series.round(dp)`).
numpy rounds ties to even; this model rounds ties up — no property below
depends on the tie rule, only on rounding being confined to the copy. -/
def round_to (dp : ℕ) (x : ℚ) : ℚ := ((⌊x * 10 ^ dp + 1 / 2⌋ : ℤ) : ℚ) / 10 ^ dp

/-- The per-row effect of the three `.round` column assignments in
`run_solar_model`: price to 4 decimal places, monetary fields to 2. -/
def round_row (r : CashFlowRow) : CashFlowRow :=
  { r with price_per_kwh := r.price_per_kwh.map (round_to 4),
           net_cashflow := round_to 2 r.net_cashflow,
           cumulative_cashflow := round_to 2 r.cumulative_cashflow }

/-- The dictionary returned by `run_solar_model`. -/
structure ModelResult where
  cashflow_table : List CashFlowRow
  upfront_cost : ℚ
  annual_generation_kwh : ℚ
  irr : Option ℚ
  payback_years : Option ℕ
deriving DecidableEq, Repr

/-- `run_solar_model`: the orchestration entry point.  Resolves the base
price, computes headline scalars, builds the schedule (all remaining
parameters at their module defaults, as in the source where they are
default arguments), derives IRR and payback from the full-precision
outputs, and only then rounds a copy of the table for display. -/
def run_solar_model (npf_irr : List ℚ → Option ℚ)
    (price_table : List (String × ℚ)) (state : String)
    (system_size_kw : ℚ) (years : ℤ) : Except String ModelResult := do
  let base_price ← get_electricity_price price_table state
  let upfront ← calc_upfront_capex system_size_kw CAPEX_PER_WATT
  let annual_gen ← calc_annual_generation_kwh system_size_kw
    GEN_KWH_PER_KW_YEAR
  let tc ← build_cashflow_schedule system_size_kw base_price years
    CAPEX_PER_WATT ITC_RATE GEN_KWH_PER_KW_YEAR PRICE_ESCALATION
    OM_PER_KW_YEAR
  let irr := calc_project_irr npf_irr tc.2
  let payback ← calc_payback_period_years tc.1
  let display_table := tc.1.map round_row
  pure { cashflow_table := display_table, upfront_cost := upfront,
         annual_generation_kwh := annual_gen, irr := irr,
         payback_years := payback }

/-! ### Evaluation lemmas for the happy paths of the scalar formulas -/

lemma get_electricity_price_head (st : String) (p : ℚ)
    (rest : List (String × ℚ)) :
    get_electricity_price ((st.toLower, p) :: rest) st = .ok p := by
  simp [get_electricity_price, List.find?_cons]

lemma calc_upfront_capex_ok (s cpw : ℚ) (h : 0 < cpw) :
    calc_upfront_capex s cpw = .ok (cpw * (s * 1000)) := by
  simp [calc_upfront_capex, not_le.mpr h]

lemma calc_itc_value_ok (c r : ℚ) (hc : 0 ≤ c) (h0 : 0 ≤ r) (h1 : r ≤ 1) :
    calc_itc_value c r = .ok (c * r) := by
  simp [calc_itc_value, not_lt.mpr hc, h0, h1]

lemma calc_annual_generation_kwh_ok (s g : ℚ) (h : 0 < g) :
    calc_annual_generation_kwh s g = .ok (s * g) := by
  simp [calc_annual_generation_kwh, not_le.mpr h]

lemma annual_om_cost_ok (s o : ℚ) (h : 0 ≤ o) :
    annual_om_cost s o = .ok (s * o) := by
  simp [annual_om_cost, not_lt.mpr h]

lemma electricity_price_for_year_ok (p : ℚ) (y : ℤ) (e : ℚ)
    (hp : 0 < p) (hy : 1 ≤ y) (he : 0 ≤ e) :
    electricity_price_for_year p y e = .ok (p * (1 + e) ^ (y - 1).toNat) := by
  simp [electricity_price_for_year, not_le.mpr hp, not_lt.mpr hy, not_lt.mpr he]

/-- Successful evaluation of `build_cashflow_schedule`: when every validation
passes, the result is the year-0 row followed by the loop rows, paired with
the flat cash-flow series. -/
lemma build_cashflow_schedule_ok (s p : ℚ) (years : ℤ)
    (cpw itcr gen e om : ℚ)
    (hy : 0 < years) (hp : 0 < p) (hcpw : 0 < cpw)
    (hcap : 0 ≤ cpw * (s * 1000)) (hi0 : 0 ≤ itcr) (hi1 : itcr ≤ 1)
    (hg : 0 < gen) (ho : 0 ≤ om) (he : 0 ≤ e) :
    build_cashflow_schedule s p years cpw itcr gen e om =
      .ok (({ year := 0, price_per_kwh := none, generation_kwh := 0,
              om_cost := 0,
              net_cashflow := -(cpw * (s * 1000)) + cpw * (s * 1000) * itcr,
              cumulative_cashflow :=
                -(cpw * (s * 1000)) + cpw * (s * 1000) * itcr } :
              CashFlowRow) ::
            schedule_rows_from (s * gen) (s * om) p e
              (-(cpw * (s * 1000)) + cpw * (s * 1000) * itcr) 1 years.toNat,
          (-(cpw * (s * 1000)) + cpw * (s * 1000) * itcr) ::
            (schedule_rows_from (s * gen) (s * om) p e
              (-(cpw * (s * 1000)) + cpw * (s * 1000) * itcr) 1
              years.toNat).map (fun r => r.net_cashflow)) := by
  rw [build_cashflow_schedule]
  rw [if_neg (not_le.mpr hy), if_neg (not_le.mpr hp)]
  rw [calc_upfront_capex_ok s cpw hcpw]
  simp only [Except.bind, bind]
  rw [calc_itc_value_ok _ _ hcap hi0 hi1]
  rw [calc_annual_generation_kwh_ok s gen hg]
  rw [annual_om_cost_ok s om ho]
  simp only [Except.bind]
  rw [if_neg (not_lt.mpr he)]
  rfl

lemma schedule_rows_from_length (g o p e c : ℚ) (yr n : ℕ) :
    (schedule_rows_from g o p e c yr n).length = n := by
  induction n generalizing yr c with
  | zero => rfl
  | succ m ih => simp [schedule_rows_from, ih]

lemma schedule_rows_from_year (g o p e : ℚ) :
    ∀ (n : ℕ) (c : ℚ) (yr i : ℕ) (r : CashFlowRow),
      (schedule_rows_from g o p e c yr n)[i]? = some r → r.year = yr + i := by
  intro n
  induction n with
  | zero => intro c yr i r h; simp [schedule_rows_from] at h
  | succ m ih =>
    intro c yr i r h
    cases i with
    | zero =>
      rw [schedule_rows_from] at h
      simp only [List.getElem?_cons_zero, Option.some.injEq] at h
      rw [← h]
      simp
    | succ j =>
      rw [schedule_rows_from] at h
      simp only [List.getElem?_cons_succ] at h
      have := ih _ _ _ _ h
      omega

/-! ### The running-sum shape of a row list -/

/-- `cum_chain c rows`: each row's cumulative cash flow is the previous
cumulative (starting from `c`) plus the row's own net cash flow. -/
def cum_chain : ℚ → List CashFlowRow → Prop
  | _, [] => True
  | c, r :: rs => r.cumulative_cashflow = c + r.net_cashflow ∧
      cum_chain r.cumulative_cashflow rs

lemma schedule_rows_from_chain (g o p e : ℚ) :
    ∀ (n : ℕ) (c : ℚ) (yr : ℕ),
      cum_chain c (schedule_rows_from g o p e c yr n) := by
  intro n
  induction n with
  | zero => intro c yr; simp [schedule_rows_from, cum_chain]
  | succ m ih =>
    intro c yr
    rw [schedule_rows_from]
    exact ⟨rfl, ih _ _⟩

lemma cum_chain_step :
    ∀ (rows : List CashFlowRow) (c : ℚ), cum_chain c rows →
      ∀ (t : ℕ) (r r' : CashFlowRow), rows[t]? = some r' →
        rows[t + 1]? = some r →
        r.cumulative_cashflow = r'.cumulative_cashflow + r.net_cashflow := by
  intro rows
  induction rows with
  | nil => intro c _ t r r' h1 _; simp at h1
  | cons x xs ih =>
    intro c h t r r' h1 h2
    simp only [cum_chain] at h
    cases t with
    | zero =>
      cases xs with
      | nil => simp at h2
      | cons y ys =>
        have hx : x = r' := by simpa using h1
        have hy : y = r := by simpa using h2
        simp only [cum_chain] at h
        rw [← hx, ← hy]
        exact h.2.1
    | succ u =>
      exact ih x.cumulative_cashflow h.2 u r r' (by simpa using h1)
        (by simpa using h2)

/-! ### First-match characterisation of `List.find?` -/

lemma find?_first (P : CashFlowRow → Bool) :
    ∀ (l : List CashFlowRow),
      (l.find? P = none → ∀ (i : ℕ) (r : CashFlowRow), l[i]? = some r →
        P r = false) ∧
      (∀ a, l.find? P = some a → ∃ j, l[j]? = some a ∧ P a = true ∧
        ∀ (t : ℕ) (r : CashFlowRow), t < j → l[t]? = some r →
          P r = false) := by
  intro l
  induction l with
  | nil =>
    refine ⟨fun _ i r h => by simp at h, fun a h => by simp at h⟩
  | cons x xs ih =>
    constructor
    · intro h i r hir
      cases hPx : P x with
      | true => rw [List.find?_cons_of_pos _ hPx] at h; exact absurd h (by simp)
      | false =>
        rw [List.find?_cons_of_neg _ (by simp [hPx])] at h
        cases i with
        | zero =>
          have : x = r := by simpa using hir
          rw [← this]; exact hPx
        | succ u => exact ih.1 h u r (by simpa using hir)
    · intro a h
      cases hPx : P x with
      | true =>
        rw [List.find?_cons_of_pos _ hPx] at h
        have hax : x = a := by simpa using h
        refine ⟨0, by simp [hax], hax ▸ hPx, fun t r ht _ => absurd ht (by omega)⟩
      | false =>
        rw [List.find?_cons_of_neg _ (by simp [hPx])] at h
        obtain ⟨j, hj, hPa, hpre⟩ := ih.2 a h
        refine ⟨j + 1, by simpa using hj, hPa, fun t r ht htr => ?_⟩
        cases t with
        | zero =>
          have : x = r := by simpa using htr
          rw [← this]; exact hPx
        | succ u => exact hpre u r (by omega) (by simpa using htr)

/-- `calc_payback_period_years` never raises on a non-empty table. -/
lemma calc_payback_cons_ok (r0 : CashFlowRow) (rest : List CashFlowRow) :
    ∃ v, calc_payback_period_years (r0 :: rest) = .ok v := by
  by_cases h : 0 ≤ r0.cumulative_cashflow
  · exact ⟨some r0.year, by simp [calc_payback_period_years, h]⟩
  · exact ⟨(rest.find? (fun r => decide (0 ≤ r.cumulative_cashflow))).map
      (fun r => r.year), by simp [calc_payback_period_years, h]⟩

/-! ### Inversion of the orchestration entry point -/

/-- If `run_solar_model` succeeds, its IRR and payback fields are exactly the
metrics computed from the full-precision schedule, and the returned table is
the rounded copy of that schedule. -/
lemma run_solar_model_ok_inv (npf : List ℚ → Option ℚ)
    (tbl : List (String × ℚ)) (st : String) (s : ℚ) (years : ℤ)
    (res : ModelResult)
    (h : run_solar_model npf tbl st s years = .ok res) :
    ∃ p table cashflows,
      get_electricity_price tbl st = .ok p ∧
      build_cashflow_schedule s p years CAPEX_PER_WATT ITC_RATE
        GEN_KWH_PER_KW_YEAR PRICE_ESCALATION OM_PER_KW_YEAR =
        .ok (table, cashflows) ∧
      res.irr = calc_project_irr npf cashflows ∧
      calc_payback_period_years table = .ok res.payback_years ∧
      res.cashflow_table = table.map round_row := by
  rw [run_solar_model] at h
  cases hbp : get_electricity_price tbl st with
  | error m => rw [hbp] at h; exact absurd h (by simp [Except.bind, bind])
  | ok p =>
    rw [hbp] at h
    simp only [bind, Except.bind] at h
    cases huf : calc_upfront_capex s CAPEX_PER_WATT with
    | error m => rw [huf] at h; exact absurd h (by simp)
    | ok upfront =>
      rw [huf] at h
      cases hag : calc_annual_generation_kwh s GEN_KWH_PER_KW_YEAR with
      | error m => rw [hag] at h; exact absurd h (by simp)
      | ok annual_gen =>
        rw [hag] at h
        cases hb : build_cashflow_schedule s p years CAPEX_PER_WATT ITC_RATE
            GEN_KWH_PER_KW_YEAR PRICE_ESCALATION OM_PER_KW_YEAR with
        | error m => rw [hb] at h; exact absurd h (by simp)
        | ok tc =>
          obtain ⟨table, cashflows⟩ := tc
          rw [hb] at h
          simp only [pure, Except.pure] at h
          cases hpb : calc_payback_period_years table with
          | error m => rw [hpb] at h; exact absurd h (by simp)
          | ok pb =>
            rw [hpb] at h
            simp only [Except.ok.injEq] at h
            refine ⟨p, table, cashflows, rfl, hb, ?_, ?_, ?_⟩
            · rw [← h]
            · rw [← h]; exact hpb
            · rw [← h]

/-! ### Reduction lemmas for the `Except` monad operations -/

lemma except_throw_eq {α : Type} (m : String) :
    (throw m : Except String α) = .error m := rfl

lemma except_pure_eq {α : Type} (a : α) :
    (pure a : Except String α) = .ok a := rfl

lemma except_bind_ok {α β : Type} (a : α) (f : α → Except String β) :
    Bind.bind (Except.ok a : Except String α) f = f a := rfl

lemma except_bind_err {α β : Type} (m : String) (f : α → Except String β) :
    Bind.bind (Except.error m : Except String α) f = .error m := rfl

/-- Inversion: any successful `build_cashflow_schedule` returns the year-0
row (net = cumulative = the year-0 flow) followed by the loop rows. -/
lemma build_ok_inv {s p : ℚ} {years : ℤ} {cpw itcr gen e om : ℚ}
    {rows : List CashFlowRow} {cfs : List ℚ}
    (h : build_cashflow_schedule s p years cpw itcr gen e om =
      .ok (rows, cfs)) :
    ∃ g o cf0,
      rows = ({ year := 0, price_per_kwh := none, generation_kwh := 0,
                om_cost := 0, net_cashflow := cf0,
                cumulative_cashflow := cf0 } : CashFlowRow) ::
        schedule_rows_from g o p e cf0 1 years.toNat := by
  rw [build_cashflow_schedule] at h
  by_cases h1 : years ≤ 0
  · rw [if_pos h1, except_throw_eq] at h; exact Except.noConfusion h
  rw [if_neg h1] at h
  by_cases h2 : p ≤ 0
  · rw [if_pos h2, except_throw_eq] at h; exact Except.noConfusion h
  rw [if_neg h2] at h
  cases hc : calc_upfront_capex s cpw with
  | error m => rw [hc, except_bind_err] at h; exact Except.noConfusion h
  | ok capexv =>
    simp only [hc, except_bind_ok] at h
    cases hi : calc_itc_value capexv itcr with
    | error m => rw [hi, except_bind_err] at h; exact Except.noConfusion h
    | ok itcv =>
      simp only [hi, except_bind_ok] at h
      cases hgn : calc_annual_generation_kwh s gen with
      | error m => rw [hgn, except_bind_err] at h; exact Except.noConfusion h
      | ok genv =>
        simp only [hgn, except_bind_ok] at h
        cases hom : annual_om_cost s om with
        | error m => rw [hom, except_bind_err] at h; exact Except.noConfusion h
        | ok omv =>
          simp only [hom, except_bind_ok] at h
          by_cases he : e < 0
          · rw [if_pos he, except_throw_eq] at h; exact Except.noConfusion h
          rw [if_neg he, except_pure_eq] at h
          have h' := Except.ok.inj h
          refine ⟨genv, omv, -capexv + itcv, ?_⟩
          have := congrArg Prod.fst h'
          simpa using this.symm

/-- C3: in every schedule the schedule builder produces, the cumulative
cash flow is the running sum of net cash flows: row 0's cumulative equals
row 0's net (the cumulative before year 0 being 0), and each later row's
cumulative is the previous row's cumulative plus its own net. -/
theorem C3_cumulative_is_running_sum (s p : ℚ) (years : ℤ)
    (cpw itcr gen e om : ℚ) (rows : List CashFlowRow) (cfs : List ℚ)
    (h : build_cashflow_schedule s p years cpw itcr gen e om =
      .ok (rows, cfs)) :
    (∀ r0, rows[0]? = some r0 →
      r0.cumulative_cashflow = r0.net_cashflow) ∧
    (∀ (t : ℕ) (r r' : CashFlowRow), rows[t]? = some r' →
      rows[t + 1]? = some r →
      r.cumulative_cashflow = r'.cumulative_cashflow + r.net_cashflow) := by
  obtain ⟨g, o, cf0, hrows⟩ := build_ok_inv h
  subst hrows
  constructor
  · intro r0 h0
    simp only [List.getElem?_cons_zero, Option.some.injEq] at h0
    rw [← h0]
  · have hchain : cum_chain 0
        (({ year := 0, price_per_kwh := none, generation_kwh := 0,
            om_cost := 0, net_cashflow := cf0,
            cumulative_cashflow := cf0 } : CashFlowRow) ::
          schedule_rows_from g o p e cf0 1 years.toNat) :=
      ⟨(zero_add cf0).symm, schedule_rows_from_chain g o p e years.toNat cf0 1⟩
    exact cum_chain_step _ 0 hchain

/-- Witness for C3 at a concrete one-year schedule. -/
theorem C3_cumulative_is_running_sum_witness :
    (∀ r0, (([⟨0, none, 0, 0, -17500, -17500⟩,
              ⟨1, some (1 / 5), 14000, 150, 2650, -14850⟩] :
        List CashFlowRow))[0]? = some r0 →
      r0.cumulative_cashflow = r0.net_cashflow) ∧
    (∀ (t : ℕ) (r r' : CashFlowRow),
      (([⟨0, none, 0, 0, -17500, -17500⟩,
         ⟨1, some (1 / 5), 14000, 150, 2650, -14850⟩] :
        List CashFlowRow))[t]? = some r' →
      (([⟨0, none, 0, 0, -17500, -17500⟩,
         ⟨1, some (1 / 5), 14000, 150, 2650, -14850⟩] :
        List CashFlowRow))[t + 1]? = some r →
      r.cumulative_cashflow = r'.cumulative_cashflow + r.net_cashflow) :=
  C3_cumulative_is_running_sum 10 (1 / 5) 1 (5 / 2) (3 / 10) 1400 (1 / 40) 15
    _ ([-17500, 2650] : List ℚ) (by
      rw [build_cashflow_schedule_ok 10 (1 / 5) 1 (5 / 2) (3 / 10) 1400
        (1 / 40) 15 (by norm_num) (by norm_num) (by norm_num) (by norm_num)
        (by norm_num) (by norm_num) (by norm_num) (by norm_num) (by norm_num)]
      norm_num [schedule_rows_from])

/-- C6: for every horizon > 0 with valid size and base price (and any valid
assumption overrides), the schedule builder returns exactly horizon + 1
rows, ordered by ascending year indices 0, 1, ..., horizon. -/
theorem C6_schedule_length_and_years (s p : ℚ) (years : ℤ)
    (cpw itcr gen e om : ℚ)
    (hy : 0 < years) (hp : 0 < p) (hs : 0 < s) (hcpw : 0 < cpw)
    (hi0 : 0 ≤ itcr) (hi1 : itcr ≤ 1) (hg : 0 < gen) (ho : 0 ≤ om)
    (he : 0 ≤ e) :
    ∃ rows cfs,
      build_cashflow_schedule s p years cpw itcr gen e om = .ok (rows, cfs) ∧
      rows.length = years.toNat + 1 ∧
      ∀ (i : ℕ) (r : CashFlowRow), rows[i]? = some r → r.year = i := by
  have hcap : 0 ≤ cpw * (s * 1000) := by positivity
  refine ⟨_, _, build_cashflow_schedule_ok s p years cpw itcr gen e om hy hp
    hcpw hcap hi0 hi1 hg ho he, ?_, ?_⟩
  · simp [schedule_rows_from_length]
  · intro i r h
    cases i with
    | zero =>
      simp only [List.getElem?_cons_zero, Option.some.injEq] at h
      rw [← h]
    | succ j =>
      have hj := schedule_rows_from_year (s * gen) (s * om) p e years.toNat _
        1 j r (by simpa using h)
      omega

/-- Witness for C6 at the default scenario. -/
theorem C6_schedule_length_and_years_witness :
    ∃ rows cfs,
      build_cashflow_schedule 10 (1 / 5) 25 (5 / 2) (3 / 10) 1400 (1 / 40)
        15 = .ok (rows, cfs) ∧
      rows.length = (25 : ℤ).toNat + 1 ∧
      ∀ (i : ℕ) (r : CashFlowRow), rows[i]? = some r → r.year = i :=
  C6_schedule_length_and_years 10 (1 / 5) 25 (5 / 2) (3 / 10) 1400 (1 / 40)
    15 (by norm_num) (by norm_num) (by norm_num) (by norm_num) (by norm_num)
    (by norm_num) (by norm_num) (by norm_num) (by norm_num)

/-- C7: the escalated electricity price is strictly increasing in the year
for every base price > 0 and escalation > 0 (year2 > year1 ≥ 1), and year 1
is the unescalated reference: `priceForYear(p, 1, e) = p`. -/
theorem C7_price_strictly_increasing (p e : ℚ) (y1 y2 : ℤ)
    (hp : 0 < p) (he : 0 < e) (h1 : 1 ≤ y1) (h12 : y1 < y2) :
    (∃ q1 q2, electricity_price_for_year p y1 e = .ok q1 ∧
      electricity_price_for_year p y2 e = .ok q2 ∧ q1 < q2) ∧
    electricity_price_for_year p 1 e = .ok p := by
  constructor
  · refine ⟨_, _, electricity_price_for_year_ok p y1 e hp h1 he.le,
      electricity_price_for_year_ok p y2 e hp (by omega) he.le, ?_⟩
    have hq : (1 : ℚ) < 1 + e := by linarith
    have hn : (y1 - 1).toNat < (y2 - 1).toNat := by omega
    exact mul_lt_mul_of_pos_left (pow_lt_pow_right₀ hq hn) hp
  · have h := electricity_price_for_year_ok p 1 e hp le_rfl he.le
    simpa using h

/-- Witness for C7 with base price 0.20, escalation 0.025, years 1 < 3. -/
theorem C7_price_strictly_increasing_witness :
    (∃ q1 q2, electricity_price_for_year (1 / 5) 1 (1 / 40) = .ok q1 ∧
      electricity_price_for_year (1 / 5) 3 (1 / 40) = .ok q2 ∧ q1 < q2) ∧
    electricity_price_for_year (1 / 5) 1 (1 / 40) = .ok (1 / 5) :=
  C7_price_strictly_increasing (1 / 5) (1 / 40) 1 3 (by norm_num)
    (by norm_num) (by norm_num) (by norm_num)

/-- C9: `calc_project_irr` returns `none` (not a failure) on any series with
fewer than 2 entries, and returns `none` whenever the external solver's
result is not a real number. -/
theorem C9_irr_undefined_cases (npf_irr : List ℚ → Option ℚ)
    (cashflows : List ℚ) :
    (cashflows.length < 2 → calc_project_irr npf_irr cashflows = none) ∧
    (npf_irr cashflows = none → calc_project_irr npf_irr cashflows = none) := by
  constructor
  · intro h
    rw [calc_project_irr, if_pos (Or.inr h)]
  · intro h
    by_cases hl : (cashflows.isEmpty = true) ∨ cashflows.length < 2
    · rw [calc_project_irr, if_pos hl]
    · rw [calc_project_irr, if_neg hl, h]

/-- Witness for C9: a 1-element series, and a 2-element series on which the
solver yields NaN. -/
theorem C9_irr_undefined_cases_witness :
    calc_project_irr (fun _ => some 0) [(-1 : ℚ)] = none ∧
    calc_project_irr (fun _ => none) [(-1 : ℚ), 2] = none :=
  ⟨(C9_irr_undefined_cases (fun _ => some 0) [(-1 : ℚ)]).1 (by norm_num),
   (C9_irr_undefined_cases (fun _ => none) [(-1 : ℚ), 2]).2 rfl⟩

lemma calc_itc_value_neg_capex (c r : ℚ) (hc : c < 0) :
    calc_itc_value c r = .error "capex must be >= 0." := by
  rw [calc_itc_value, if_pos hc]

/-- C10: a negative system size (with positive cost per watt and an ITC rate
in [0,1]) makes the schedule builder fail with the ITC formula's
`capex must be >= 0.` error: the capex step itself succeeds — no function
validates the size directly — but yields a negative capex. -/
theorem C10_negative_size_fails_in_itc (s p : ℚ) (years : ℤ)
    (cpw itcr gen e om : ℚ)
    (hs : s < 0) (hcpw : 0 < cpw) (_hi0 : 0 ≤ itcr) (_hi1 : itcr ≤ 1)
    (hy : 0 < years) (hp : 0 < p) :
    build_cashflow_schedule s p years cpw itcr gen e om =
      .error "capex must be >= 0." ∧
    calc_upfront_capex s cpw = .ok (cpw * (s * 1000)) ∧
    cpw * (s * 1000) < 0 := by
  have hcap : cpw * (s * 1000) < 0 :=
    mul_neg_of_pos_of_neg hcpw (by linarith)
  refine ⟨?_, calc_upfront_capex_ok s cpw hcpw, hcap⟩
  rw [build_cashflow_schedule]
  rw [if_neg (not_le.mpr hy), if_neg (not_le.mpr hp)]
  rw [calc_upfront_capex_ok s cpw hcpw]
  simp only [except_bind_ok]
  rw [calc_itc_value_neg_capex _ _ hcap]
  rfl

/-- Witness for C10 at size −1 kW with the default assumptions. -/
theorem C10_negative_size_fails_in_itc_witness :
    build_cashflow_schedule (-1) (1 / 5) 25 (5 / 2) (3 / 10) 1400 (1 / 40)
      15 = .error "capex must be >= 0." ∧
    calc_upfront_capex (-1) (5 / 2) = .ok ((5 / 2) * ((-1) * 1000)) ∧
    (5 / 2 : ℚ) * ((-1) * 1000) < 0 :=
  C10_negative_size_fails_in_itc (-1) (1 / 5) 25 (5 / 2) (3 / 10) 1400
    (1 / 40) 15 (by norm_num) (by norm_num) (by norm_num) (by norm_num)
    (by norm_num) (by norm_num)

/-- C4: on a non-empty table whose year column equals the row index (as in
every built schedule), `calc_payback_period_years` returns the year of the
first row with cumulative ≥ 0 — so a returned year Y has
`rows[Y].cumulative ≥ 0` and every earlier row negative — and returns
`none` exactly when no row within the horizon reaches ≥ 0. -/
theorem C4_payback_first_nonneg_year (rows : List CashFlowRow)
    (hne : rows ≠ [])
    (hyr : ∀ (i : ℕ) (r : CashFlowRow), rows[i]? = some r → r.year = i) :
    (calc_payback_period_years rows = .ok none ↔
      ∀ (i : ℕ) (r : CashFlowRow), rows[i]? = some r →
        r.cumulative_cashflow < 0) ∧
    (∀ Y, calc_payback_period_years rows = .ok (some Y) →
      (∃ r, rows[Y]? = some r ∧ 0 ≤ r.cumulative_cashflow) ∧
      (∀ (t : ℕ) (r : CashFlowRow), t < Y → rows[t]? = some r →
        r.cumulative_cashflow < 0)) := by
  obtain ⟨r0, rest, rfl⟩ : ∃ a l, rows = a :: l := by
    cases rows with
    | nil => exact absurd rfl hne
    | cons a l => exact ⟨a, l, rfl⟩
  by_cases h0 : 0 ≤ r0.cumulative_cashflow
  · have hy0 : r0.year = 0 := hyr 0 r0 (by simp)
    have hcalc : calc_payback_period_years (r0 :: rest) = .ok (some 0) := by
      rw [calc_payback_period_years, if_pos h0, hy0]
    constructor
    · constructor
      · intro hc
        rw [hcalc] at hc
        exact absurd (Except.ok.inj hc) (by simp)
      · intro hall
        exact absurd h0 (not_le.mpr (hall 0 r0 (by simp)))
    · intro Y hY
      rw [hcalc] at hY
      obtain rfl : (0 : ℕ) = Y := Option.some.inj (Except.ok.inj hY)
      exact ⟨⟨r0, by simp, h0⟩, fun t r ht _ => absurd ht (by omega)⟩
  · have hcalc : calc_payback_period_years (r0 :: rest) =
        .ok ((rest.find? (fun r => decide (0 ≤ r.cumulative_cashflow))).map
          (fun r => r.year)) := by
      rw [calc_payback_period_years, if_neg h0]
    cases hf : rest.find? (fun r => decide (0 ≤ r.cumulative_cashflow)) with
    | none =>
      rw [hf] at hcalc
      constructor
      · constructor
        · intro _ i r hir
          cases i with
          | zero =>
            have hr : r0 = r := by simpa using hir
            rw [← hr]; exact not_le.mp h0
          | succ u =>
            have hPr := (find?_first
              (fun r => decide (0 ≤ r.cumulative_cashflow)) rest).1 hf u r
              (by simpa using hir)
            exact not_le.mp (of_decide_eq_false hPr)
        · intro _; exact hcalc
      · intro Y hY
        rw [hcalc] at hY
        exact absurd (Except.ok.inj hY) (by simp)
    | some a =>
      rw [hf] at hcalc
      obtain ⟨j, hj, hPa, hpre⟩ := (find?_first
        (fun r => decide (0 ≤ r.cumulative_cashflow)) rest).2 a hf
      have hya : a.year = j + 1 := hyr (j + 1) a (by simpa using hj)
      constructor
      · constructor
        · intro hc
          rw [hcalc] at hc
          exact absurd (Except.ok.inj hc) (by simp)
        · intro hall
          have hlt := hall (j + 1) a (by simpa using hj)
          exact absurd (of_decide_eq_true hPa) (not_le.mpr hlt)
      · intro Y hY
        rw [hcalc] at hY
        obtain rfl : a.year = Y := Option.some.inj (Except.ok.inj hY)
        rw [hya]
        refine ⟨⟨a, by simpa using hj, of_decide_eq_true hPa⟩, ?_⟩
        intro t r ht htr
        cases t with
        | zero =>
          have hr : r0 = r := by simpa using htr
          rw [← hr]; exact not_le.mp h0
        | succ u =>
          have hPr := hpre u r (by omega) (by simpa using htr)
          exact not_le.mp (of_decide_eq_false hPr)

/-- Witness for C4 on a concrete two-row table that pays back in year 1. -/
theorem C4_payback_first_nonneg_year_witness :
    (calc_payback_period_years
        ([⟨0, none, 0, 0, -5, -5⟩, ⟨1, some 1, 1, 0, 6, 1⟩] :
          List CashFlowRow) = .ok none ↔
      ∀ (i : ℕ) (r : CashFlowRow),
        (([⟨0, none, 0, 0, -5, -5⟩, ⟨1, some 1, 1, 0, 6, 1⟩] :
          List CashFlowRow))[i]? = some r → r.cumulative_cashflow < 0) ∧
    (∀ Y, calc_payback_period_years
        ([⟨0, none, 0, 0, -5, -5⟩, ⟨1, some 1, 1, 0, 6, 1⟩] :
          List CashFlowRow) = .ok (some Y) →
      (∃ r, (([⟨0, none, 0, 0, -5, -5⟩, ⟨1, some 1, 1, 0, 6, 1⟩] :
          List CashFlowRow))[Y]? = some r ∧ 0 ≤ r.cumulative_cashflow) ∧
      (∀ (t : ℕ) (r : CashFlowRow), t < Y →
        (([⟨0, none, 0, 0, -5, -5⟩, ⟨1, some 1, 1, 0, 6, 1⟩] :
          List CashFlowRow))[t]? = some r → r.cumulative_cashflow < 0)) :=
  C4_payback_first_nonneg_year
    ([⟨0, none, 0, 0, -5, -5⟩, ⟨1, some 1, 1, 0, 6, 1⟩] : List CashFlowRow)
    (by simp)
    (by
      intro i r h
      cases i with
      | zero =>
        simp only [List.getElem?_cons_zero, Option.some.injEq] at h
        rw [← h]
      | succ j =>
        cases j with
        | zero =>
          simp only [List.getElem?_cons_succ, List.getElem?_cons_zero,
            Option.some.injEq] at h
          rw [← h]
        | succ k => simp at h)

/-- C5: the end-to-end example of the spec: price 0.20, size 10 kW,
horizon 25, default assumptions give capex 25000, ITC 7500, year-0 net
−17500, year-1 generation 14000 kWh at price 0.20, gross savings 2800,
O&M 150, net 2650, cumulative −14850. -/
theorem C5_end_to_end_example :
    build_cashflow_schedule 10 (1 / 5) 25 (5 / 2) (3 / 10) 1400 (1 / 40) 15 =
      .ok (({ year := 0, price_per_kwh := none, generation_kwh := 0,
              om_cost := 0, net_cashflow := -17500,
              cumulative_cashflow := -17500 } : CashFlowRow) ::
            schedule_rows_from 14000 150 (1 / 5) (1 / 40) (-17500) 1 25,
          (-17500 : ℚ) ::
            (schedule_rows_from 14000 150 (1 / 5) (1 / 40) (-17500) 1
              25).map (fun r => r.net_cashflow)) ∧
    (schedule_rows_from 14000 150 (1 / 5) (1 / 40) (-17500) 1 25)[0]? =
      some { year := 1, price_per_kwh := some (1 / 5),
             generation_kwh := 14000, om_cost := 150, net_cashflow := 2650,
             cumulative_cashflow := -14850 } ∧
    calc_upfront_capex 10 (5 / 2) = .ok 25000 ∧
    calc_itc_value 25000 (3 / 10) = .ok 7500 ∧
    (14000 : ℚ) * (1 / 5) = 2800 := by
  refine ⟨?_, ?_, ?_, ?_, by norm_num⟩
  · rw [build_cashflow_schedule_ok 10 (1 / 5) 25 (5 / 2) (3 / 10) 1400
      (1 / 40) 15 (by norm_num) (by norm_num) (by norm_num) (by norm_num)
      (by norm_num) (by norm_num) (by norm_num) (by norm_num) (by norm_num)]
    norm_num
    exact ⟨rfl, rfl⟩
  · rw [schedule_rows_from]
    norm_num
  · rw [calc_upfront_capex_ok 10 (5 / 2) (by norm_num)]
    norm_num
  · rw [calc_itc_value_ok 25000 (3 / 10) (by norm_num) (by norm_num)
      (by norm_num)]
    norm_num

/-- Generic successful evaluation of `run_solar_model`: a resolvable region,
a positive base price, a non-negative size and a positive horizon give a
result built from the full-precision schedule, with the table rounded only
in the returned copy. -/
lemma run_solar_model_eval (npf_irr : List ℚ → Option ℚ)
    (tbl : List (String × ℚ)) (st : String) (s p : ℚ) (years : ℤ)
    (hbp : get_electricity_price tbl st = .ok p) (hp : 0 < p) (hs : 0 ≤ s)
    (hy : 0 < years) :
    ∃ pb,
      calc_payback_period_years
        (({ year := 0, price_per_kwh := none, generation_kwh := 0,
            om_cost := 0,
            net_cashflow := -(CAPEX_PER_WATT * (s * 1000)) +
              CAPEX_PER_WATT * (s * 1000) * ITC_RATE,
            cumulative_cashflow := -(CAPEX_PER_WATT * (s * 1000)) +
              CAPEX_PER_WATT * (s * 1000) * ITC_RATE } : CashFlowRow) ::
          schedule_rows_from (s * GEN_KWH_PER_KW_YEAR) (s * OM_PER_KW_YEAR)
            p PRICE_ESCALATION
            (-(CAPEX_PER_WATT * (s * 1000)) +
              CAPEX_PER_WATT * (s * 1000) * ITC_RATE) 1 years.toNat) =
        .ok pb ∧
      run_solar_model npf_irr tbl st s years =
        .ok { cashflow_table :=
                (({ year := 0, price_per_kwh := none, generation_kwh := 0,
                    om_cost := 0,
                    net_cashflow := -(CAPEX_PER_WATT * (s * 1000)) +
                      CAPEX_PER_WATT * (s * 1000) * ITC_RATE,
                    cumulative_cashflow := -(CAPEX_PER_WATT * (s * 1000)) +
                      CAPEX_PER_WATT * (s * 1000) * ITC_RATE } :
                    CashFlowRow) ::
                  schedule_rows_from (s * GEN_KWH_PER_KW_YEAR)
                    (s * OM_PER_KW_YEAR) p PRICE_ESCALATION
                    (-(CAPEX_PER_WATT * (s * 1000)) +
                      CAPEX_PER_WATT * (s * 1000) * ITC_RATE) 1
                    years.toNat).map round_row,
              upfront_cost := CAPEX_PER_WATT * (s * 1000),
              annual_generation_kwh := s * GEN_KWH_PER_KW_YEAR,
              irr := calc_project_irr npf_irr
                ((-(CAPEX_PER_WATT * (s * 1000)) +
                    CAPEX_PER_WATT * (s * 1000) * ITC_RATE) ::
                  (schedule_rows_from (s * GEN_KWH_PER_KW_YEAR)
                    (s * OM_PER_KW_YEAR) p PRICE_ESCALATION
                    (-(CAPEX_PER_WATT * (s * 1000)) +
                      CAPEX_PER_WATT * (s * 1000) * ITC_RATE) 1
                    years.toNat).map (fun r => r.net_cashflow)),
              payback_years := pb } := by
  have h1 : (0 : ℚ) < CAPEX_PER_WATT := by norm_num [CAPEX_PER_WATT]
  have hcap : 0 ≤ CAPEX_PER_WATT * (s * 1000) :=
    mul_nonneg h1.le (mul_nonneg hs (by norm_num))
  obtain ⟨pb, hpb⟩ := calc_payback_cons_ok _ _
  refine ⟨pb, hpb, ?_⟩
  rw [run_solar_model, hbp]
  simp only [except_bind_ok]
  rw [calc_upfront_capex_ok s CAPEX_PER_WATT h1]
  simp only [except_bind_ok]
  rw [calc_annual_generation_kwh_ok s GEN_KWH_PER_KW_YEAR
    (by norm_num [GEN_KWH_PER_KW_YEAR])]
  simp only [except_bind_ok]
  rw [build_cashflow_schedule_ok s p years CAPEX_PER_WATT ITC_RATE
    GEN_KWH_PER_KW_YEAR PRICE_ESCALATION OM_PER_KW_YEAR hy hp h1 hcap
    (by norm_num [ITC_RATE]) (by norm_num [ITC_RATE])
    (by norm_num [GEN_KWH_PER_KW_YEAR]) (by norm_num [OM_PER_KW_YEAR])
    (by norm_num [PRICE_ESCALATION])]
  simp only [except_bind_ok]
  rw [hpb]
  simp only [except_bind_ok, except_pure_eq]

/-- C1: evaluation of the entry point at the claim's failing input.  A run
with system size 0 kW (valid region, positive price, horizon 25) is NOT
rejected with an InvalidInput error: no size validation exists, a zero size
passes every formula guard (capex 0 is accepted by the ITC check), and the
model returns a schedule of 26 all-zero cash-flow rows with upfront cost 0
and payback year 0. -/
theorem C1_size_zero_not_rejected :
    ∃ res, run_solar_model (fun _ => none)
        [("california".toLower, 1 / 5)] "california" 0 25 = .ok res ∧
      res.upfront_cost = 0 ∧ res.payback_years = some 0 ∧
      res.cashflow_table.length = 26 := by
  obtain ⟨pb, hpb, hrun⟩ := run_solar_model_eval (fun _ => none)
    [("california".toLower, 1 / 5)] "california" 0 (1 / 5) 25
    (get_electricity_price_head "california" (1 / 5) []) (by norm_num)
    le_rfl (by norm_num)
  have hpb0 : calc_payback_period_years
      (({ year := 0, price_per_kwh := none, generation_kwh := 0,
          om_cost := 0,
          net_cashflow := -(CAPEX_PER_WATT * (0 * 1000)) +
            CAPEX_PER_WATT * (0 * 1000) * ITC_RATE,
          cumulative_cashflow := -(CAPEX_PER_WATT * (0 * 1000)) +
            CAPEX_PER_WATT * (0 * 1000) * ITC_RATE } : CashFlowRow) ::
        schedule_rows_from (0 * GEN_KWH_PER_KW_YEAR) (0 * OM_PER_KW_YEAR)
          (1 / 5) PRICE_ESCALATION
          (-(CAPEX_PER_WATT * (0 * 1000)) +
            CAPEX_PER_WATT * (0 * 1000) * ITC_RATE) 1 (25 : ℤ).toNat) =
      .ok (some 0) := by
    simp only [calc_payback_period_years]
    rw [if_pos (by norm_num [CAPEX_PER_WATT, ITC_RATE])]
  obtain rfl : pb = some 0 := Except.ok.inj (hpb.symm.trans hpb0)
  refine ⟨_, hrun, ?_, rfl, ?_⟩
  · norm_num [CAPEX_PER_WATT]
  · simp only [List.length_map, List.length_cons, schedule_rows_from_length]
    rfl

/-- C2 counterexample: contrary to the claim, the entry point does not cap
the horizon at the assumptions' 25 years: passing 26 years yields a
schedule of 27 rows, more than 25 + 1. -/
theorem C2_horizon_not_capped :
    ∃ res, run_solar_model (fun _ => none)
        [("california".toLower, 1 / 5)] "california" 10 26 = .ok res ∧
      res.cashflow_table.length = 27 ∧
      ¬ res.cashflow_table.length ≤ PROJECT_YEARS.toNat + 1 := by
  obtain ⟨pb, hpb, hrun⟩ := run_solar_model_eval (fun _ => none)
    [("california".toLower, 1 / 5)] "california" 10 (1 / 5) 26
    (get_electricity_price_head "california" (1 / 5) []) (by norm_num)
    (by norm_num) (by norm_num)
  refine ⟨_, hrun, ?_, ?_⟩
  · simp only [List.length_map, List.length_cons, schedule_rows_from_length]
    rfl
  · simp only [List.length_map, List.length_cons, schedule_rows_from_length,
      PROJECT_YEARS]
    decide

/-- C2 amended: the entry point builds the schedule for exactly the horizon
it is given — `years + 1` rows for every `years > 0`, with no cap at the
assumptions' 25-year horizon (the cap exists only in the UI slider). -/
theorem C2_schedule_runs_full_horizon (npf_irr : List ℚ → Option ℚ)
    (tbl : List (String × ℚ)) (st : String) (s p : ℚ) (years : ℤ)
    (hbp : get_electricity_price tbl st = .ok p) (hp : 0 < p) (hs : 0 ≤ s)
    (hy : 0 < years) :
    ∃ res, run_solar_model npf_irr tbl st s years = .ok res ∧
      res.cashflow_table.length = years.toNat + 1 := by
  obtain ⟨pb, hpb, hrun⟩ := run_solar_model_eval npf_irr tbl st s p years
    hbp hp hs hy
  exact ⟨_, hrun, by
    simp only [List.length_map, List.length_cons, schedule_rows_from_length]⟩

/-- Witness for the amended C2 at a 30-year horizon. -/
theorem C2_schedule_runs_full_horizon_witness :
    ∃ res, run_solar_model (fun _ => none)
        [("california".toLower, 1 / 5)] "california" 10 30 = .ok res ∧
      res.cashflow_table.length = (30 : ℤ).toNat + 1 :=
  C2_schedule_runs_full_horizon (fun _ => none)
    [("california".toLower, 1 / 5)] "california" 10 (1 / 5) 30
    (get_electricity_price_head "california" (1 / 5) []) (by norm_num)
    (by norm_num) (by norm_num)

/-- C8: whenever the entry point succeeds, the IRR and payback it returns
are exactly the metrics computed from the full-precision schedule and
cash-flow series, and only the returned table copy is rounded (price to 4
decimal places, net and cumulative to 2, per `round_row`). -/
theorem C8_metrics_use_full_precision (npf_irr : List ℚ → Option ℚ)
    (tbl : List (String × ℚ)) (st : String) (s : ℚ) (years : ℤ)
    (res : ModelResult)
    (h : run_solar_model npf_irr tbl st s years = .ok res) :
    ∃ p table cashflows,
      get_electricity_price tbl st = .ok p ∧
      build_cashflow_schedule s p years CAPEX_PER_WATT ITC_RATE
        GEN_KWH_PER_KW_YEAR PRICE_ESCALATION OM_PER_KW_YEAR =
        .ok (table, cashflows) ∧
      res.irr = calc_project_irr npf_irr cashflows ∧
      calc_payback_period_years table = .ok res.payback_years ∧
      res.cashflow_table = table.map round_row :=
  run_solar_model_ok_inv npf_irr tbl st s years res h

/-- Witness for C8 at a concrete one-year run: the returned IRR and payback
are the full-precision metrics, the rounded table matching the
full-precision one because the example's values are exact at 2 decimals. -/
theorem C8_metrics_use_full_precision_witness :
    ∃ p table cashflows,
      get_electricity_price [("california".toLower, 1 / 5)] "california" =
        .ok p ∧
      build_cashflow_schedule 10 p 1 CAPEX_PER_WATT ITC_RATE
        GEN_KWH_PER_KW_YEAR PRICE_ESCALATION OM_PER_KW_YEAR =
        .ok (table, cashflows) ∧
      (none : Option ℚ) = calc_project_irr (fun _ => none) cashflows ∧
      calc_payback_period_years table = .ok (none : Option ℕ) ∧
      ([⟨0, none, 0, 0, -17500, -17500⟩,
        ⟨1, some (1 / 5), 14000, 150, 2650, -14850⟩] : List CashFlowRow) =
        table.map round_row :=
  C8_metrics_use_full_precision (fun _ => none)
    [("california".toLower, 1 / 5)] "california" 10 1
    { cashflow_table := [⟨0, none, 0, 0, -17500, -17500⟩,
        ⟨1, some (1 / 5), 14000, 150, 2650, -14850⟩],
      upfront_cost := 25000, annual_generation_kwh := 14000,
      irr := none, payback_years := none }
    (by
      obtain ⟨pb, hpb, hrun⟩ := run_solar_model_eval (fun _ => none)
        [("california".toLower, 1 / 5)] "california" 10 (1 / 5) 1
        (get_electricity_price_head "california" (1 / 5) []) (by norm_num)
        (by norm_num) (by norm_num)
      have htail : schedule_rows_from (10 * GEN_KWH_PER_KW_YEAR)
          (10 * OM_PER_KW_YEAR) (1 / 5) PRICE_ESCALATION
          (-(CAPEX_PER_WATT * (10 * 1000)) +
            CAPEX_PER_WATT * (10 * 1000) * ITC_RATE) 1 (1 : ℤ).toNat =
          [{ year := 1, price_per_kwh := some (1 / 5),
             generation_kwh := 14000, om_cost := 150, net_cashflow := 2650,
             cumulative_cashflow := -14850 }] := by
        norm_num [schedule_rows_from, GEN_KWH_PER_KW_YEAR, OM_PER_KW_YEAR,
          PRICE_ESCALATION, CAPEX_PER_WATT, ITC_RATE]
      rw [htail] at hpb hrun
      simp only [calc_payback_period_years] at hpb
      rw [if_neg (by norm_num [CAPEX_PER_WATT, ITC_RATE])] at hpb
      rw [List.find?_cons_of_neg _ (by norm_num), List.find?_nil] at hpb
      simp only [Option.map_none'] at hpb
      obtain rfl := Except.ok.inj hpb
      norm_num [round_row, round_to, calc_project_irr, CAPEX_PER_WATT,
        ITC_RATE, GEN_KWH_PER_KW_YEAR] at hrun
      exact hrun)
